import Mathlib

/-!
Verification of the matchmaking bot in `main.py` (profile store, conversation
state machine, candidate selection, swipe loop, mutual-match detection,
profile deletion).  The relational store backed by sqlite is embedded as
lists of rows; each handler of the bot becomes a pure function from the
store and the per-user session data to their updated values plus the reply
sent.  Typographic apostrophes occurring in the bot reply texts are elided
from the string literals; nothing in the development depends on them.
-/

namespace ValourMatch

/-- A row of the `users` table (`main.py` lines 45-55): all columns apart
from the primary key `telegram_id`, which keys the row in the store. -/
structure Profile where
  name : String
  age : Nat
  description : String
  photo_id : String
  gender : String
  preferred_gender : String
deriving DecidableEq, Repr

/-- The relational store: `users` keyed by telegram id, and the `likes` and
`skips` pair tables (`main.py` lines 45-71).  Rows are kept in insertion
order, as sqlite returns them for these queries. -/
structure Store where
  users : List (Nat × Profile)
  likes : List (Nat × Nat)
  skips : List (Nat × Nat)
deriving DecidableEq, Repr

/-- `get_user_row` (`main.py` lines 118-121): SELECT * FROM users WHERE
telegram_id=?, returning the first matching row or none. -/
def get_user_row (s : Store) (tid : Nat) : Option Profile :=
  (s.users.find? (fun r => decide (r.1 = tid))).map Prod.snd

/-- `has_liked` (`main.py` lines 123-126). -/
def has_liked (s : Store) (uid oid : Nat) : Bool :=
  decide ((uid, oid) ∈ s.likes)

/-- `has_skipped` (`main.py` lines 128-131). -/
def has_skipped (s : Store) (uid oid : Nat) : Bool :=
  decide ((uid, oid) ∈ s.skips)

/-- INSERT OR IGNORE INTO likes (`main.py` line 421): a new row is appended
unless the pair is already present (UNIQUE(liker_id, liked_id)). -/
def insertLike (s : Store) (r c : Nat) : Store :=
  if (r, c) ∈ s.likes then s else { s with likes := s.likes ++ [(r, c)] }

/-- INSERT OR IGNORE INTO skips (`main.py` line 451). -/
def insertSkip (s : Store) (r c : Nat) : Store :=
  if (r, c) ∈ s.skips then s else { s with skips := s.skips ++ [(r, c)] }

/-- Conversation states of the handler (`main.py` line 114), plus `END` for
`ConversationHandler.END`. -/
inductive ConvState where
  | ASK_NAME | ASK_AGE | ASK_DESC | ASK_PHOTO | ASK_GENDER | ASK_PREF_GENDER | MATCHING | END
deriving DecidableEq, Repr

/-- The per-user `context.user_data` dictionary during a registration or
edit conversation: the `editing` flag plus the six profile fields, each
absent (`none`) until collected or seeded. -/
structure UserData where
  editing : Bool
  name : Option String
  age : Option Nat
  description : Option String
  photo_id : Option String
  gender : Option String
  preferred_gender : Option String
deriving DecidableEq, Repr

/-- The exact sentinel string offered by the edit-mode keyboards. -/
def keepCurrent : String := "🟰 Keep current"

/-- Python `str.strip()`: drop whitespace from both ends. -/
def py_strip (t : String) : String :=
  String.mk (((t.data.dropWhile Char.isWhitespace).reverse.dropWhile Char.isWhitespace).reverse)

/-- Python `str.isdigit` on the inputs relevant here: non-empty and all
decimal digits.  (The embedding is at ASCII granularity.) -/
def str_isdigit (t : String) : Bool :=
  decide (t ≠ "") && t.data.all Char.isDigit

/-- Python `int` on a digit string: its decimal value. -/
def str_toNat (t : String) : Nat :=
  t.data.foldl (fun n ch => n * 10 + (ch.toNat - 48)) 0

/-- `ask_name` (`main.py` lines 200-205): strips the text, stores it as the
name unless it is empty or the keep-current sentinel, and always advances
to the age step. -/
def ask_name (d : UserData) (text : String) : UserData × ConvState × String :=
  let t := py_strip text
  let d1 := if t ≠ "" ∧ t ≠ keepCurrent then { d with name := some t } else d
  (d1, ConvState.ASK_AGE, "2/6 — Enter your age (numbers only):")

/-- `ask_age` (`main.py` lines 207-228): in editing mode the sentinel keeps
the stored age; otherwise non-digit input or an age outside 16-120 is
rejected with a re-prompt, and a valid age is stored. -/
def ask_age (d : UserData) (text : String) : UserData × ConvState × String :=
  let t := py_strip text
  if d.editing ∧ t = keepCurrent then
    (d, ConvState.ASK_DESC, "3/6 — Write a short description about yourself (or press 🟰 Keep current).")
  else if str_isdigit t = false then
    (d, ConvState.ASK_AGE, "Please enter a valid age (numbers only), or press 🟰 Keep current.")
  else
    let age := str_toNat t
    if age < 16 ∨ age > 120 then
      (d, ConvState.ASK_AGE, "Age must be between 16 and 120.")
    else
      ({ d with age := some age }, ConvState.ASK_DESC,
       "3/6 — Write a short description about yourself (or press 🟰 Keep current).")

/-- `ask_desc` (`main.py` lines 230-244): in editing mode the sentinel keeps
the stored description; any other text (the stripped input) is stored
verbatim.  Always advances to the photo step. -/
def ask_desc (d : UserData) (text : String) : UserData × ConvState × String :=
  let t := py_strip text
  let d1 := if d.editing ∧ t = keepCurrent then d else { d with description := some t }
  (d1, ConvState.ASK_PHOTO,
   if d.editing then "4/6 — Send a profile photo, or press 🟰 Keep current."
   else "4/6 — Send a profile photo (required):")

/-- An inbound message at the photo step: either a photo (carrying the
file id of its largest size, `update.message.photo[-1].file_id`) or text. -/
inductive MsgIn where
  | text (t : String)
  | photo (file_id : String)
deriving DecidableEq, Repr

/-- `ask_photo` (`main.py` lines 246-262): in editing mode the exact
sentinel text keeps the stored photo; a photo message stores its file id;
anything else is rejected with a re-prompt. -/
def ask_photo (d : UserData) (m : MsgIn) : UserData × ConvState × String :=
  if d.editing ∧ m = MsgIn.text keepCurrent then
    (d, ConvState.ASK_GENDER, "5/6 — Select your gender (or 🟰 Keep current):")
  else
    match m with
    | MsgIn.photo fid =>
        ({ d with photo_id := some fid }, ConvState.ASK_GENDER,
         if d.editing then "5/6 — Select your gender (or 🟰 Keep current):"
         else "5/6 — Select your gender:")
    | MsgIn.text _ =>
        (d, ConvState.ASK_PHOTO,
         if d.editing then "Send a new photo, or press 🟰 Keep current."
         else "A profile photo is required. Please send a photo.")

/-- The ASK_PHOTO state handler filter (`main.py` line 497):
`filters.PHOTO | filters.Regex("^🟰 Keep current$")`.  A text message other
than the exact sentinel never reaches `ask_photo`; the conversation state
is left unchanged (the update falls through to the generic fallback). -/
def ask_photo_dispatch (d : UserData) (m : MsgIn) : UserData × ConvState × String :=
  match m with
  | MsgIn.photo _ => ask_photo d m
  | MsgIn.text t =>
      if t = keepCurrent then ask_photo d m
      else (d, ConvState.ASK_PHOTO, "I did not get that — use the menu below. 👇")

/-- `ask_gender` (`main.py` lines 264-279): Male/Female is stored; the
sentinel in editing mode keeps the stored gender; anything else is rejected
with a re-prompt. -/
def ask_gender (d : UserData) (text : String) : UserData × ConvState × String :=
  let t := py_strip text
  if t = "Male" ∨ t = "Female" then
    ({ d with gender := some t }, ConvState.ASK_PREF_GENDER,
     if d.editing then "6/6 — Preferred gender to see (or 🟰 Keep current):"
     else "6/6 — Preferred gender to see:")
  else if t = keepCurrent ∧ d.editing then
    (d, ConvState.ASK_PREF_GENDER, "6/6 — Preferred gender to see (or 🟰 Keep current):")
  else
    (d, ConvState.ASK_GENDER, "Please choose Male or Female.")

/-- The commit at the end of `ask_pref_gender` (`main.py` lines 292-326):
INSERT a fresh row when `get_user_row` finds none, otherwise UPDATE the
columns of every row of that telegram id in place. -/
def commit_profile (s : Store) (tid : Nat) (p : Profile) : Store :=
  if get_user_row s tid = none then
    { s with users := s.users ++ [(tid, p)] }
  else
    { s with users := s.users.map (fun r => if r.1 = tid then (tid, p) else r) }

/-- Building the payload (`main.py` lines 294-302) reads all six session
fields; a missing key raises KeyError before any database access, which the
top-level error handler answers with the generic apology, leaving both the
store and the conversation state untouched. -/
def commit_step (s : Store) (tid : Nat) (d : UserData) : Store × UserData × ConvState × String :=
  match d.name, d.age, d.description, d.photo_id, d.gender, d.preferred_gender with
  | some nm, some ag, some ds, some ph, some g, some pg =>
      (commit_profile s tid ⟨nm, ag, ds, ph, g, pg⟩, d, ConvState.END, "✅ Profile saved!")
  | _, _, _, _, _, _ =>
      (s, d, ConvState.ASK_PREF_GENDER, "😵 Oops, something went wrong. Please try again!")

/-- `ask_pref_gender` (`main.py` lines 281-326): Male/Female is stored, the
sentinel in editing mode keeps the stored value, anything else re-prompts;
on acceptance the six session fields are committed to the store. -/
def ask_pref_gender (s : Store) (tid : Nat) (d : UserData) (text : String) :
    Store × UserData × ConvState × String :=
  let t := py_strip text
  if t = "Male" ∨ t = "Female" then
    commit_step s tid { d with preferred_gender := some t }
  else if t = keepCurrent ∧ d.editing then
    commit_step s tid d
  else
    (s, d, ConvState.ASK_PREF_GENDER, "Please choose Male or Female.")

/-- `find_match` (`main.py` lines 353-378): `none` when the requester has no
profile; otherwise the rows whose gender equals the requester's preferred
gender and whose id differs, further filtered to those with a truthy
photo reference that the requester has neither liked nor skipped. -/
def find_match (s : Store) (rid : Nat) : Option (List (Nat × Profile)) :=
  match get_user_row s rid with
  | none => none
  | some me =>
      let rows := s.users.filter
        (fun r => decide (r.2.gender = me.preferred_gender) && decide (r.1 ≠ rid))
      some (rows.filter
        (fun r => decide (r.2.photo_id ≠ "") && !(has_liked s rid r.1) && !(has_skipped s rid r.1)))

/-- The swipe-loop part of `context.user_data`: the candidate list cached by
`find_match`, the cursor, and the candidate currently presented. -/
structure MatchSession where
  candidates : List (Nat × Profile)
  idx : Nat
  current_candidate_id : Option Nat
  current_candidate_name : Option String
deriving DecidableEq, Repr

/-- `show_next_candidate` (`main.py` lines 380-401): past the end of the
list the loop ends; otherwise the candidate at the cursor becomes current
and is presented, photo-less rows being stepped over. -/
def show_next_candidate (sess : MatchSession) : MatchSession × ConvState × String :=
  if h : sess.candidates.length ≤ sess.idx then
    (sess, ConvState.END, "No more profiles 😔")
  else
    let cand := sess.candidates.get ⟨sess.idx, by omega⟩
    let sess1 := { sess with current_candidate_id := some cand.1,
                             current_candidate_name := some cand.2.name }
    if cand.2.photo_id = "" then
      show_next_candidate { sess1 with idx := sess1.idx + 1 }
    else
      (sess1, ConvState.MATCHING,
       "Name: " ++ cand.2.name ++ "\nAge: " ++ toString cand.2.age ++ "\nBio: " ++ cand.2.description)
termination_by sess.candidates.length - sess.idx

/-- Python truthiness of the stored candidate id (`if not cand_id`). -/
def truthy_id : Option Nat → Bool
  | none => false
  | some n => decide (n ≠ 0)

/-- The like branch of `match_response` (`main.py` lines 419-447): insert
the like, then report whether the reverse like is present, which is exactly
when the mutual-match notification fires. -/
def like_action (s : Store) (my_id cand_id : Nat) : Store × Bool :=
  let s1 := insertLike s my_id cand_id
  (s1, decide ((cand_id, my_id) ∈ s1.likes))

/-- The button texts accepted by `match_response` (`main.py` lines 415-417). -/
def LIKE_WORDS : List String := ["❤️ Like", "Like", "👍 Like"]

def SKIP_WORDS : List String := ["👎 Skip", "Skip", "No"]

def STOP_WORDS : List String := ["💤 Stop", "Stop"]

/-- Result of one `match_response` step: updated store and session, the
next conversation state, whether the mutual-match notification fired, and
the (final) reply sent to the acting user. -/
structure MRes where
  store : Store
  sess : MatchSession
  state : ConvState
  fired : Bool
  reply : String
deriving DecidableEq, Repr

/-- `match_response` (`main.py` lines 403-465): with no active candidate the
conversation ends; a like inserts the pair and runs mutual-match detection,
a skip inserts into skips, both advance the cursor and present the next
candidate; stop ends the loop; any other text re-prompts with the same
candidate and changes nothing. -/
def match_response (s : Store) (my_id : Nat) (sess : MatchSession) (text : String) : MRes :=
  let t := py_strip text
  if truthy_id sess.current_candidate_id = false then
    ⟨s, sess, ConvState.END, false, "No active profile. Use Find a Match."⟩
  else
    let cand_id := sess.current_candidate_id.getD 0
    if t ∈ LIKE_WORDS then
      let la := like_action s my_id cand_id
      let nxt := show_next_candidate { sess with idx := sess.idx + 1 }
      ⟨la.1, nxt.1, nxt.2.1, la.2, nxt.2.2⟩
    else if t ∈ SKIP_WORDS then
      let s1 := insertSkip s my_id cand_id
      let nxt := show_next_candidate { sess with idx := sess.idx + 1 }
      ⟨s1, nxt.1, nxt.2.1, false, nxt.2.2⟩
    else if t ∈ STOP_WORDS then
      ⟨s, sess, ConvState.END, false, "Stopped matching."⟩
    else
      ⟨s, sess, ConvState.MATCHING, false, "Use the buttons below. ❤️ Like • 👎 Skip • 💤 Stop"⟩

/-- A like or skip decision event, as recorded by the swipe loop. -/
inductive SwipeEv where
  | like (r c : Nat)
  | skip (r c : Nat)
deriving DecidableEq, Repr

/-- Run a sequence of recorded decisions through the store, annotating each
event with whether the mutual-match notification fired at that step (only a
like step can fire, per `match_response`). -/
def runSw : Store → List SwipeEv → Store × List (SwipeEv × Bool)
  | s, [] => (s, [])
  | s, SwipeEv.like r c :: tl =>
      let la := like_action s r c
      let rest := runSw la.1 tl
      (rest.1, (SwipeEv.like r c, la.2) :: rest.2)
  | s, SwipeEv.skip r c :: tl =>
      let rest := runSw (insertSkip s r c) tl
      (rest.1, (SwipeEv.skip r c, false) :: rest.2)

/-- Number of steps of the trace at which a mutual-match notification fired
for the unordered pair of identities A and B. -/
def pairFires (s : Store) (tr : List SwipeEv) (A B : Nat) : Nat :=
  ((runSw s tr).2.filter
    (fun p => (decide (p.1 = SwipeEv.like A B) || decide (p.1 = SwipeEv.like B A)) && p.2)).length

/-- DELETE FROM users WHERE telegram_id=? (`main.py` line 472). -/
def delete_users_stmt (s : Store) (uid : Nat) : Store :=
  { s with users := s.users.filter (fun r => decide (r.1 ≠ uid)) }

/-- DELETE FROM likes WHERE liker_id=? OR liked_id=? (`main.py` line 473). -/
def delete_likes_stmt (s : Store) (uid : Nat) : Store :=
  { s with likes := s.likes.filter (fun p => !(decide (p.1 = uid) || decide (p.2 = uid))) }

/-- DELETE FROM skips WHERE skipper_id=? OR skipped_id=? (`main.py` line 474). -/
def delete_skips_stmt (s : Store) (uid : Nat) : Store :=
  { s with skips := s.skips.filter (fun p => !(decide (p.1 = uid) || decide (p.2 = uid))) }

/-- `delete_profile` (`main.py` lines 469-477), success path: the three
DELETE statements run inside one `db()` block, then the unconditional
confirmation is sent. -/
def delete_profile (s : Store) (uid : Nat) : Store × String :=
  (delete_skips_stmt (delete_likes_stmt (delete_users_stmt s uid) uid) uid,
   "Your profile has been deleted.")

/-- A statement that may hit a storage error (`none`); `f` is its pure
effect on the store when it succeeds. -/
def mayFail (err : Bool) (f : Store → Store) : Store → Option Store :=
  fun s => if err then none else some (f s)

/-- Run the statements of a transaction in order, stopping at the first
storage error. -/
def run_stmts : Store → List (Store → Option Store) → Option Store
  | s, [] => some s
  | s, f :: rest =>
      match f s with
      | none => none
      | some s1 => run_stmts s1 rest

/-- The `db()` context manager (`main.py` lines 78-86) around a sequence of
statements: commit the final state on success; on a storage error the
transaction is rolled back, restoring the store as it was at entry. -/
def db_txn (s : Store) (stmts : List (Store → Option Store)) : Store :=
  match run_stmts s stmts with
  | some s1 => s1
  | none => s

/-- `delete_profile` with a possible storage error at each of its three
statements (e1, e2, e3), run under the `db()` transaction. -/
def delete_profile_txn (s : Store) (uid : Nat) (e1 e2 e3 : Bool) : Store :=
  db_txn s
    [mayFail e1 (fun st => delete_users_stmt st uid),
     mayFail e2 (fun st => delete_likes_stmt st uid),
     mayFail e3 (fun st => delete_skips_stmt st uid)]

/-- `edit_profile` seeding (`main.py` lines 171-196): the session is cleared,
the editing flag set, and all six fields pre-seeded from the stored row. -/
def edit_seed (p : Profile) : UserData :=
  ⟨true, some p.name, some p.age, some p.description, some p.photo_id,
   some p.gender, some p.preferred_gender⟩

/-- The complete edit flow answered with the keep-current sentinel at every
one of the six steps: seed from the stored row, run the six handlers, and
return the resulting store.  With no stored row `edit_profile` ends the
conversation without touching the store. -/
def edit_flow_keep (s : Store) (tid : Nat) : Store :=
  match get_user_row s tid with
  | none => s
  | some p =>
      let d1 := (ask_name (edit_seed p) keepCurrent).1
      let d2 := (ask_age d1 keepCurrent).1
      let d3 := (ask_desc d2 keepCurrent).1
      let d4 := (ask_photo d3 (MsgIn.text keepCurrent)).1
      let d5 := (ask_gender d4 keepCurrent).1
      (ask_pref_gender s tid d5 keepCurrent).1

/-- At most one `users` row per telegram id: the invariant enforced by the
PRIMARY KEY of the table. -/
def UsersUnique (s : Store) : Prop :=
  ∀ t : Nat, s.users.countP (fun r => decide (r.1 = t)) ≤ 1

/-- The concrete profile set of the candidate-selection example: requester
A prefers Female; B is Female with a photo, C is Female without a photo,
D is Male with a photo. -/
def profA : Profile := ⟨"A", 30, "bio a", "pa", "Male", "Female"⟩

def profB : Profile := ⟨"B", 28, "bio b", "pb", "Female", "Male"⟩

def profC : Profile := ⟨"C", 27, "bio c", "", "Female", "Male"⟩

def profD : Profile := ⟨"D", 26, "bio d", "pd", "Male", "Female"⟩

def exStore : Store := ⟨[(1, profA), (2, profB), (3, profC), (4, profD)], [], []⟩

/-- A fresh first-time-registration session, as `start` creates it
(`main.py` lines 148-153): cleared user data with `editing = False`. -/
def regSession0 : UserData := ⟨false, none, none, none, none, none, none⟩

/-- A swipe session with one active candidate, for concrete instances. -/
def sessEx : MatchSession := ⟨[(2, profB)], 0, some 2, some "B"⟩

theorem filter_self_of_all {α : Type} (p : α → Bool) (l : List α)
    (h : ∀ a ∈ l, p a = true) : l.filter p = l :=
  List.filter_eq_self.mpr h

theorem likes_insertSkip (s : Store) (r c : Nat) :
    (insertSkip s r c).likes = s.likes := by
  unfold insertSkip; split <;> rfl

theorem users_insertLike (s : Store) (r c : Nat) :
    (insertLike s r c).users = s.users := by
  unfold insertLike; split <;> rfl

theorem users_insertSkip (s : Store) (r c : Nat) :
    (insertSkip s r c).users = s.users := by
  unfold insertSkip; split <;> rfl

theorem mem_insertLike (s : Store) (r c x y : Nat) :
    (x, y) ∈ (insertLike s r c).likes ↔ (x, y) ∈ s.likes ∨ (x = r ∧ y = c) := by
  unfold insertLike
  split
  · constructor
    · exact fun h => Or.inl h
    · rintro (h | ⟨rfl, rfl⟩) <;> assumption
  · simp [List.mem_append, Prod.ext_iff]

theorem filter_idem {α : Type} (p : α → Bool) (l : List α) :
    (l.filter p).filter p = l.filter p :=
  filter_self_of_all p _ (fun _ ha => List.of_mem_filter ha)

theorem store_eq (a b : Store) (hu : a.users = b.users) (hl : a.likes = b.likes)
    (hs : a.skips = b.skips) : a = b := by
  cases a; cases b; simp_all

theorem mem_insertSkip (s : Store) (r c x y : Nat) :
    (x, y) ∈ (insertSkip s r c).skips ↔ (x, y) ∈ s.skips ∨ (x = r ∧ y = c) := by
  unfold insertSkip
  split
  · constructor
    · exact fun h => Or.inl h
    · rintro (h | ⟨rfl, rfl⟩) <;> assumption
  · simp [List.mem_append, Prod.ext_iff]

theorem insertLike_mem_noop (s : Store) (r c : Nat) (h : (r, c) ∈ s.likes) :
    insertLike s r c = s := by
  unfold insertLike; rw [if_pos h]

theorem insertSkip_mem_noop (s : Store) (r c : Nat) (h : (r, c) ∈ s.skips) :
    insertSkip s r c = s := by
  unfold insertSkip; rw [if_pos h]

/-- C3.  Inserting a like when the row is already present leaves the likes
relation unchanged, and after any insertion the pair has exactly one row;
likewise for skips: like/skip insertion is idempotent. -/
theorem like_skip_insert_idempotent (s : Store) (r c : Nat)
    (hl : s.likes.count (r, c) ≤ 1) (hs : s.skips.count (r, c) ≤ 1) :
    ((r, c) ∈ s.likes → insertLike s r c = s) ∧
    insertLike (insertLike s r c) r c = insertLike s r c ∧
    (insertLike s r c).likes.count (r, c) = 1 ∧
    ((r, c) ∈ s.skips → insertSkip s r c = s) ∧
    insertSkip (insertSkip s r c) r c = insertSkip s r c ∧
    (insertSkip s r c).skips.count (r, c) = 1 := by
  have hLcnt : (insertLike s r c).likes.count (r, c) = 1 := by
    by_cases h : (r, c) ∈ s.likes
    · rw [insertLike_mem_noop s r c h]
      have h0 : s.likes.count (r, c) ≠ 0 := fun hz => (List.count_eq_zero.mp hz) h
      omega
    · unfold insertLike
      rw [if_neg h]
      simp [List.count_append, List.count_eq_zero_of_not_mem h]
  have hScnt : (insertSkip s r c).skips.count (r, c) = 1 := by
    by_cases h : (r, c) ∈ s.skips
    · rw [insertSkip_mem_noop s r c h]
      have h0 : s.skips.count (r, c) ≠ 0 := fun hz => (List.count_eq_zero.mp hz) h
      omega
    · unfold insertSkip
      rw [if_neg h]
      simp [List.count_append, List.count_eq_zero_of_not_mem h]
  have hLtwice : insertLike (insertLike s r c) r c = insertLike s r c :=
    insertLike_mem_noop _ _ _ ((mem_insertLike s r c r c).mpr (Or.inr ⟨rfl, rfl⟩))
  have hStwice : insertSkip (insertSkip s r c) r c = insertSkip s r c :=
    insertSkip_mem_noop _ _ _ ((mem_insertSkip s r c r c).mpr (Or.inr ⟨rfl, rfl⟩))
  exact ⟨insertLike_mem_noop s r c, hLtwice, hLcnt, insertSkip_mem_noop s r c, hStwice, hScnt⟩

theorem like_skip_insert_idempotent_witness :
    (([((1 : Nat), (2 : Nat))] : List (Nat × Nat)).count (1, 2) ≤ 1) ∧
    (([] : List (Nat × Nat)).count ((1 : Nat), (2 : Nat)) ≤ 1) ∧
    insertLike ⟨[], [(1, 2)], []⟩ 1 2 = ⟨[], [(1, 2)], []⟩ ∧
    (insertSkip ⟨[], [(1, 2)], []⟩ 1 2).skips.count (1, 2) = 1 := by
  refine ⟨by decide, by decide, ?_, ?_⟩
  · exact (like_skip_insert_idempotent ⟨[], [(1, 2)], []⟩ 1 2 (by decide) (by decide)).1 (by decide)
  · exact (like_skip_insert_idempotent ⟨[], [(1, 2)], []⟩ 1 2 (by decide) (by decide)).2.2.2.2.2

/-- C10.  Deleting an identity none of whose rows exist (in particular an
identity already deleted) changes no relation and still sends the deletion
confirmation; delete is idempotent. -/
theorem delete_missing_noop_idempotent (s : Store) (uid : Nat)
    (h1 : ∀ r ∈ s.users, r.1 ≠ uid)
    (h2 : ∀ p ∈ s.likes, p.1 ≠ uid ∧ p.2 ≠ uid)
    (h3 : ∀ p ∈ s.skips, p.1 ≠ uid ∧ p.2 ≠ uid) :
    (delete_profile s uid).1 = s ∧
    (delete_profile s uid).2 = "Your profile has been deleted." ∧
    ∀ s0 : Store, (delete_profile (delete_profile s0 uid).1 uid).1 = (delete_profile s0 uid).1 := by
  refine ⟨?_, rfl, ?_⟩
  · apply store_eq
    · simp only [delete_profile, delete_users_stmt, delete_likes_stmt, delete_skips_stmt]
      exact filter_self_of_all _ _ (fun a ha => by simpa using h1 a ha)
    · simp only [delete_profile, delete_users_stmt, delete_likes_stmt, delete_skips_stmt]
      exact filter_self_of_all _ _ (fun a ha => by simpa using h2 a ha)
    · simp only [delete_profile, delete_users_stmt, delete_likes_stmt, delete_skips_stmt]
      exact filter_self_of_all _ _ (fun a ha => by simpa using h3 a ha)
  · intro s0
    apply store_eq <;>
      simp only [delete_profile, delete_users_stmt, delete_likes_stmt, delete_skips_stmt] <;>
      exact filter_idem _ _

theorem delete_missing_noop_idempotent_witness :
    (∀ r ∈ ([((1 : Nat), Profile.mk "A" 30 "a" "pa" "Male" "Female")] : List (Nat × Profile)), r.1 ≠ 9) ∧
    (delete_profile ⟨[(1, Profile.mk "A" 30 "a" "pa" "Male" "Female")], [], []⟩ 9).1 =
      ⟨[(1, Profile.mk "A" 30 "a" "pa" "Male" "Female")], [], []⟩ := by
  refine ⟨by decide, ?_⟩
  exact (delete_missing_noop_idempotent ⟨[(1, Profile.mk "A" 30 "a" "pa" "Male" "Female")], [], []⟩ 9
    (by decide) (by decide) (by decide)).1

/-- C4.  `delete_profile` removes the profile row and every likes/skips row
mentioning the identity (and nothing else), and runs as one transaction:
with no storage error all three removals are applied, while a storage error
at any of the three statements rolls the whole transaction back, leaving
the store unchanged. -/
theorem delete_profile_atomic (s : Store) (uid : Nat) (e1 e2 e3 : Bool) :
    (e1 = false → e2 = false → e3 = false →
      delete_profile_txn s uid e1 e2 e3 = (delete_profile s uid).1 ∧
      (∀ r : Nat × Profile, r ∈ (delete_profile s uid).1.users ↔ r ∈ s.users ∧ r.1 ≠ uid) ∧
      (∀ p : Nat × Nat, p ∈ (delete_profile s uid).1.likes ↔ p ∈ s.likes ∧ p.1 ≠ uid ∧ p.2 ≠ uid) ∧
      (∀ p : Nat × Nat, p ∈ (delete_profile s uid).1.skips ↔ p ∈ s.skips ∧ p.1 ≠ uid ∧ p.2 ≠ uid)) ∧
    ((e1 = true ∨ e2 = true ∨ e3 = true) → delete_profile_txn s uid e1 e2 e3 = s) := by
  constructor
  · rintro rfl rfl rfl
    refine ⟨rfl, ?_, ?_, ?_⟩
    · intro r
      simp [delete_profile, delete_users_stmt, delete_likes_stmt, delete_skips_stmt,
        List.mem_filter]
    · intro p
      simp [delete_profile, delete_users_stmt, delete_likes_stmt, delete_skips_stmt,
        List.mem_filter]
    · intro p
      simp [delete_profile, delete_users_stmt, delete_likes_stmt, delete_skips_stmt,
        List.mem_filter]
  · intro herr
    cases e1 <;> cases e2 <;> cases e3 <;>
      simp_all [delete_profile_txn, db_txn, run_stmts, mayFail]

theorem delete_profile_atomic_witness :
    (false = false) ∧
    delete_profile_txn ⟨[(1, Profile.mk "A" 30 "a" "pa" "Male" "Female")], [(1, 2)], [(2, 1)]⟩ 1
        false false false =
      (delete_profile ⟨[(1, Profile.mk "A" 30 "a" "pa" "Male" "Female")], [(1, 2)], [(2, 1)]⟩ 1).1 ∧
    delete_profile_txn ⟨[(1, Profile.mk "A" 30 "a" "pa" "Male" "Female")], [(1, 2)], [(2, 1)]⟩ 1
        false true false =
      ⟨[(1, Profile.mk "A" 30 "a" "pa" "Male" "Female")], [(1, 2)], [(2, 1)]⟩ := by
  refine ⟨rfl, ?_, ?_⟩
  · exact ((delete_profile_atomic
      ⟨[(1, Profile.mk "A" 30 "a" "pa" "Male" "Female")], [(1, 2)], [(2, 1)]⟩ 1
      false false false).1 rfl rfl rfl).1
  · exact (delete_profile_atomic
      ⟨[(1, Profile.mk "A" 30 "a" "pa" "Male" "Female")], [(1, 2)], [(2, 1)]⟩ 1
      false true false).2 (Or.inr (Or.inl rfl))

/-- C9.  Every operation preserves "at most one users row per identity":
the commit step appends a fresh row exactly when no row for the identity
exists and otherwise rewrites the existing row in place, and like, skip and
delete never increase any identity's row count. -/
theorem users_unique_preserved (s : Store) (h : UsersUnique s) :
    (∀ tid p, UsersUnique (commit_profile s tid p)) ∧
    (∀ tid p, get_user_row s tid = none →
      (commit_profile s tid p).users = s.users ++ [(tid, p)]) ∧
    (∀ tid p, get_user_row s tid ≠ none →
      (commit_profile s tid p).users = s.users.map (fun r => if r.1 = tid then (tid, p) else r)) ∧
    (∀ r c, UsersUnique (insertLike s r c)) ∧
    (∀ r c, UsersUnique (insertSkip s r c)) ∧
    (∀ uid, UsersUnique (delete_profile s uid).1) := by
  refine ⟨?_, ?_, ?_, ?_, ?_, ?_⟩
  · intro tid p t
    unfold commit_profile
    by_cases hn : get_user_row s tid = none
    · rw [if_pos hn]
      have hfind : s.users.find? (fun r => decide (r.1 = tid)) = none := by
        unfold get_user_row at hn
        cases hfe : s.users.find? (fun r => decide (r.1 = tid)) with
        | none => rfl
        | some v => rw [hfe] at hn; simp at hn
      have hz : s.users.countP (fun r => decide (r.1 = tid)) = 0 := by
        rw [List.countP_eq_zero]
        intro a ha
        have := List.find?_eq_none.mp hfind a ha
        simpa using this
      by_cases ht : t = tid
      · subst ht
        simp only [List.countP_append]
        rw [hz]
        simp
      · simp only [List.countP_append]
        have h2 : List.countP (fun r => decide (r.1 = t)) [(tid, p)] = 0 := by
          simp [List.countP_cons, ht, Ne.symm ht]
        rw [h2]
        simpa using h t
    · rw [if_neg hn]
      simp only [List.countP_map]
      have hcong : ∀ r ∈ s.users,
          (((fun r => decide (r.1 = t)) ∘ (fun r => if r.1 = tid then (tid, p) else r)) r = true ↔
            decide (r.1 = t) = true) := by
        intro r _
        by_cases hr : r.1 = tid
        · simp [Function.comp, hr]
        · simp [Function.comp, hr]
      rw [List.countP_congr hcong]
      exact h t
  · intro tid p hn
    unfold commit_profile
    rw [if_pos hn]
  · intro tid p hn
    unfold commit_profile
    rw [if_neg hn]
  · intro r c t
    rw [users_insertLike]
    exact h t
  · intro r c t
    rw [users_insertSkip]
    exact h t
  · intro uid t
    refine le_trans ?_ (h t)
    simp only [delete_profile, delete_users_stmt, delete_likes_stmt, delete_skips_stmt]
    exact (List.filter_sublist _).countP_le _

theorem users_unique_preserved_witness :
    UsersUnique ⟨[(1, Profile.mk "A" 30 "a" "pa" "Male" "Female")], [], []⟩ ∧
    UsersUnique (commit_profile ⟨[(1, Profile.mk "A" 30 "a" "pa" "Male" "Female")], [], []⟩ 2
      (Profile.mk "B" 28 "b" "pb" "Female" "Male")) := by
  have hu : UsersUnique ⟨[(1, Profile.mk "A" 30 "a" "pa" "Male" "Female")], [], []⟩ := by
    intro t
    by_cases h1t : (1 : Nat) = t <;> simp [List.countP_cons, h1t]
  exact ⟨hu, (users_unique_preserved _ hu).1 2 (Profile.mk "B" 28 "b" "pb" "Female" "Male")⟩

/-- C2.  Candidate selection returns exactly the stored profiles whose
gender equals the requester's preferred gender, with a different identity,
a non-empty photo reference, and no existing like or skip from the
requester; on the four-profile example, selection for A yields exactly B. -/
theorem find_match_selection :
    (∀ (s : Store) (rid : Nat) (me : Profile), get_user_row s rid = some me →
      ∀ r : Nat × Profile, r ∈ (find_match s rid).getD [] ↔
        (r ∈ s.users ∧ r.2.gender = me.preferred_gender ∧ r.1 ≠ rid ∧
         r.2.photo_id ≠ "" ∧ (rid, r.1) ∉ s.likes ∧ (rid, r.1) ∉ s.skips)) ∧
    find_match exStore 1 = some [(2, profB)] := by
  constructor
  · intro s rid me hme r
    simp only [find_match, hme, Option.getD_some]
    simp only [List.mem_filter, Bool.and_eq_true, Bool.not_eq_true', decide_eq_true_eq,
      has_liked, has_skipped, decide_eq_false_iff_not]
    tauto
  · decide

theorem find_match_selection_witness :
    get_user_row exStore 1 = some profA ∧
    ((2, profB) ∈ (find_match exStore 1).getD [] ↔
      ((2, profB) ∈ exStore.users ∧ profB.gender = profA.preferred_gender ∧ (2 : Nat) ≠ 1 ∧
       profB.photo_id ≠ "" ∧ ((1 : Nat), (2 : Nat)) ∉ exStore.likes ∧
       ((1 : Nat), (2 : Nat)) ∉ exStore.skips)) :=
  ⟨by decide, find_match_selection.1 exStore 1 profA (by decide) (2, profB)⟩

/-- C5.  In registration mode the age step stores any digit string whose
value lies in 16-120 and advances to the description step; any other input
(non-digit text, or a value outside the range) is rejected with a re-prompt
and the session is left unchanged, still at the age step. -/
theorem ask_age_collect (d : UserData) (text : String) (hreg : d.editing = false) :
    (str_isdigit (py_strip text) = true →
      16 ≤ str_toNat (py_strip text) → str_toNat (py_strip text) ≤ 120 →
      ask_age d text = ({ d with age := some (str_toNat (py_strip text)) }, ConvState.ASK_DESC,
        "3/6 — Write a short description about yourself (or press 🟰 Keep current).")) ∧
    (str_isdigit (py_strip text) = false →
      ask_age d text = (d, ConvState.ASK_AGE,
        "Please enter a valid age (numbers only), or press 🟰 Keep current.")) ∧
    (str_isdigit (py_strip text) = true →
      (str_toNat (py_strip text) < 16 ∨ 120 < str_toNat (py_strip text)) →
      ask_age d text = (d, ConvState.ASK_AGE, "Age must be between 16 and 120.")) := by
  have hcond : ¬(d.editing = true ∧ py_strip text = keepCurrent) := by
    simp [hreg]
  refine ⟨?_, ?_, ?_⟩
  · intro hd h16 h120
    simp only [ask_age]
    rw [if_neg hcond, if_neg (by simp [hd]), if_neg (by omega)]
  · intro hd
    simp only [ask_age]
    rw [if_neg hcond, if_pos hd]
  · intro hd hrange
    simp only [ask_age]
    rw [if_neg hcond, if_neg (by simp [hd]), if_pos (by omega)]

theorem ask_age_collect_witness :
    regSession0.editing = false ∧
    str_isdigit (py_strip "25") = true ∧
    (16 ≤ str_toNat (py_strip "25") ∧ str_toNat (py_strip "25") ≤ 120) ∧
    ask_age regSession0 "25" = ({ regSession0 with age := some (str_toNat (py_strip "25")) },
      ConvState.ASK_DESC,
      "3/6 — Write a short description about yourself (or press 🟰 Keep current).") ∧
    ask_age regSession0 "abc" = (regSession0, ConvState.ASK_AGE,
      "Please enter a valid age (numbers only), or press 🟰 Keep current.") ∧
    ask_age regSession0 "15" = (regSession0, ConvState.ASK_AGE,
      "Age must be between 16 and 120.") :=
  ⟨rfl, by decide, ⟨by decide, by decide⟩,
   (ask_age_collect regSession0 "25" rfl).1 (by decide) (by decide) (by decide),
   (ask_age_collect regSession0 "abc" rfl).2.1 (by decide),
   (ask_age_collect regSession0 "15" rfl).2.2 (by decide) (by decide)⟩

theorem strip_keep : py_strip keepCurrent = keepCurrent := by decide

theorem keep_ne_male : keepCurrent ≠ "Male" := by decide

theorem keep_ne_female : keepCurrent ≠ "Female" := by decide

theorem find?_append_none {α : Type} (p : α → Bool) (l1 l2 : List α)
    (h : l1.find? p = none) : (l1 ++ l2).find? p = l2.find? p := by
  induction l1 with
  | nil => simp
  | cons a t ih =>
      cases hpa : p a with
      | true => simp [List.find?, hpa] at h
      | false =>
          simp only [List.find?, hpa] at h
          simp only [List.cons_append, List.find?, hpa]
          exact ih h

theorem find?_map_key (l : List (Nat × Profile)) (tid : Nat) (p : Profile)
    (h : l.find? (fun r => decide (r.1 = tid)) ≠ none) :
    (l.map (fun r => if r.1 = tid then (tid, p) else r)).find? (fun r => decide (r.1 = tid)) =
      some (tid, p) := by
  induction l with
  | nil => simp at h
  | cons a t ih =>
      by_cases ha : a.1 = tid
      · rw [List.map_cons, if_pos ha, List.find?_cons_of_pos _ (by simp)]
      · rw [List.find?_cons_of_neg _ (by simp [ha])] at h
        rw [List.map_cons, if_neg ha, List.find?_cons_of_neg _ (by simp [ha])]
        exact ih h

theorem get_user_row_commit (s : Store) (tid : Nat) (p : Profile) :
    get_user_row (commit_profile s tid p) tid = some p := by
  unfold commit_profile
  by_cases hn : get_user_row s tid = none
  · rw [if_pos hn]
    have hfind : s.users.find? (fun r => decide (r.1 = tid)) = none := by
      unfold get_user_row at hn
      cases hfe : s.users.find? (fun r => decide (r.1 = tid)) with
      | none => rfl
      | some v => rw [hfe] at hn; simp at hn
    unfold get_user_row
    simp only []
    rw [find?_append_none _ _ _ hfind]
    simp [List.find?]
  · rw [if_neg hn]
    have hfind : s.users.find? (fun r => decide (r.1 = tid)) ≠ none := by
      unfold get_user_row at hn
      intro hfe
      rw [hfe] at hn
      exact hn rfl
    unfold get_user_row
    simp only []
    rw [find?_map_key _ _ _ hfind]
    rfl

/-- C7.  Running the edit flow and answering every one of the six steps
with the keep-current sentinel leaves the stored profile row identical to
its value before the edit. -/
theorem edit_keep_preserves_profile (s : Store) (tid : Nat) (p : Profile)
    (hp : get_user_row s tid = some p) :
    get_user_row (edit_flow_keep s tid) tid = some p := by
  unfold edit_flow_keep
  rw [hp]
  dsimp only
  have h1 : (ask_name (edit_seed p) keepCurrent).1 = edit_seed p := by
    simp [ask_name, strip_keep]
  have h2 : (ask_age (edit_seed p) keepCurrent).1 = edit_seed p := by
    simp [ask_age, strip_keep, edit_seed]
  have h3 : (ask_desc (edit_seed p) keepCurrent).1 = edit_seed p := by
    simp [ask_desc, strip_keep, edit_seed]
  have h4 : (ask_photo (edit_seed p) (MsgIn.text keepCurrent)).1 = edit_seed p := by
    simp [ask_photo, edit_seed]
  have h5 : (ask_gender (edit_seed p) keepCurrent).1 = edit_seed p := by
    simp [ask_gender, strip_keep, keep_ne_male, keep_ne_female, edit_seed]
  rw [h1, h2, h3, h4, h5]
  have h6 : (ask_pref_gender s tid (edit_seed p) keepCurrent).1 = commit_profile s tid p := by
    simp [ask_pref_gender, strip_keep, keep_ne_male, keep_ne_female, edit_seed, commit_step]
  rw [h6]
  exact get_user_row_commit s tid p

theorem edit_keep_preserves_profile_witness :
    get_user_row exStore 2 = some profB ∧
    get_user_row (edit_flow_keep exStore 2) 2 = some profB :=
  ⟨by decide, edit_keep_preserves_profile exStore 2 profB (by decide)⟩

/-- C8.  In the swipe state, any input that is none of the accepted like,
skip or stop texts re-prompts with the same candidate and changes nothing:
the store (likes and skips included), the cached candidate list, the
cursor and the current candidate are all returned unchanged, and the
conversation stays in MATCHING. -/
theorem match_response_reprompt (s : Store) (my_id : Nat) (sess : MatchSession) (text : String)
    (hcid : truthy_id sess.current_candidate_id = true)
    (hlk : py_strip text ∉ LIKE_WORDS) (hsk : py_strip text ∉ SKIP_WORDS)
    (hst : py_strip text ∉ STOP_WORDS) :
    match_response s my_id sess text =
      ⟨s, sess, ConvState.MATCHING, false, "Use the buttons below. ❤️ Like • 👎 Skip • 💤 Stop"⟩ := by
  simp only [match_response]
  rw [if_neg (by simp [hcid]), if_neg hlk, if_neg hsk, if_neg hst]

theorem match_response_reprompt_witness :
    truthy_id sessEx.current_candidate_id = true ∧
    py_strip "hello" ∉ LIKE_WORDS ∧
    match_response exStore 1 sessEx "hello" =
      ⟨exStore, sessEx, ConvState.MATCHING, false,
       "Use the buttons below. ❤️ Like • 👎 Skip • 💤 Stop"⟩ :=
  ⟨by decide, by decide,
   match_response_reprompt exStore 1 sessEx "hello" (by decide) (by decide) (by decide) (by decide)⟩

/-- C6 counterexample.  During first-time registration the name step does
accept the keep-current sentinel: on a fresh session the sentinel input
advances to the age step while storing no name at all, so not every step
demands a fresh valid value (the commit later fails on the missing key). -/
theorem registration_name_sentinel_advances :
    (ask_name regSession0 keepCurrent).1.name = none ∧
    (ask_name regSession0 keepCurrent).1 = regSession0 ∧
    (ask_name regSession0 keepCurrent).2.1 = ConvState.ASK_AGE := by
  refine ⟨?_, ?_, ?_⟩ <;> decide

/-- C6 amended.  During first-time registration the sentinel is not honored
as "keep current" at the age, gender and preferred-gender steps (it is
rejected with a re-prompt), and at the description step it is stored
literally as the description text; at the name step, however, sentinel
input advances without storing a value.  A photo is mandatory: any
non-photo message leaves the conversation at the photo step with the
session unchanged, and only a photo advances it. -/
theorem registration_sentinel_amended (d : UserData) (s : Store) (tid : Nat)
    (hreg : d.editing = false) :
    ((ask_age d keepCurrent).1 = d ∧ (ask_age d keepCurrent).2.1 = ConvState.ASK_AGE) ∧
    ((ask_gender d keepCurrent).1 = d ∧ (ask_gender d keepCurrent).2.1 = ConvState.ASK_GENDER) ∧
    ((ask_pref_gender s tid d keepCurrent).1 = s ∧
      (ask_pref_gender s tid d keepCurrent).2.1 = d ∧
      (ask_pref_gender s tid d keepCurrent).2.2.1 = ConvState.ASK_PREF_GENDER) ∧
    ((ask_name d keepCurrent).1 = d ∧ (ask_name d keepCurrent).2.1 = ConvState.ASK_AGE) ∧
    ((ask_desc d keepCurrent).1 = { d with description := some keepCurrent } ∧
      (ask_desc d keepCurrent).2.1 = ConvState.ASK_PHOTO) ∧
    (∀ t : String, (ask_photo_dispatch d (MsgIn.text t)).1 = d ∧
      (ask_photo_dispatch d (MsgIn.text t)).2.1 = ConvState.ASK_PHOTO) ∧
    (∀ fid : String, (ask_photo_dispatch d (MsgIn.photo fid)).1 = { d with photo_id := some fid } ∧
      (ask_photo_dispatch d (MsgIn.photo fid)).2.1 = ConvState.ASK_GENDER) := by
  have hdig : str_isdigit (py_strip keepCurrent) = false := by decide
  refine ⟨?_, ?_, ?_, ?_, ?_, ?_, ?_⟩
  · constructor <;> simp [ask_age, hreg, hdig]
  · constructor <;>
      simp [ask_gender, strip_keep, keep_ne_male, keep_ne_female, hreg]
  · refine ⟨?_, ?_, ?_⟩ <;>
      simp [ask_pref_gender, strip_keep, keep_ne_male, keep_ne_female, hreg]
  · constructor <;> simp [ask_name, strip_keep]
  · constructor <;> simp [ask_desc, strip_keep, hreg]
  · intro t
    by_cases ht : t = keepCurrent
    · subst ht
      constructor <;> simp [ask_photo_dispatch, ask_photo, hreg]
    · constructor <;> simp [ask_photo_dispatch, ask_photo, ht]
  · intro fid
    constructor <;> simp [ask_photo_dispatch, ask_photo, hreg]

theorem registration_sentinel_amended_witness :
    regSession0.editing = false ∧
    (ask_age regSession0 keepCurrent).1 = regSession0 ∧
    (ask_age regSession0 keepCurrent).2.1 = ConvState.ASK_AGE :=
  ⟨rfl, (registration_sentinel_amended regSession0 ⟨[], [], []⟩ 1 rfl).1.1,
   (registration_sentinel_amended regSession0 ⟨[], [], []⟩ 1 rfl).1.2⟩

theorem pairFires_nil (s : Store) (A B : Nat) : pairFires s [] A B = 0 := rfl

theorem pairFires_cons_like (s : Store) (r c A B : Nat) (tl : List SwipeEv) :
    pairFires s (SwipeEv.like r c :: tl) A B =
      (if ((r = A ∧ c = B) ∨ (r = B ∧ c = A)) ∧ (c, r) ∈ (insertLike s r c).likes
       then 1 else 0) + pairFires (insertLike s r c) tl A B := by
  by_cases hcond : ((r = A ∧ c = B) ∨ (r = B ∧ c = A)) ∧ (c, r) ∈ (insertLike s r c).likes
  · simp only [pairFires, runSw, like_action, List.filter_cons]
    rw [if_pos hcond,
      if_pos (by simp only [Bool.and_eq_true, Bool.or_eq_true, decide_eq_true_eq,
        SwipeEv.like.injEq]; exact hcond)]
    simp [Nat.add_comm]
  · simp only [pairFires, runSw, like_action, List.filter_cons]
    rw [if_neg hcond,
      if_neg (by simp only [Bool.and_eq_true, Bool.or_eq_true, decide_eq_true_eq,
        SwipeEv.like.injEq]; exact hcond)]
    simp

theorem pairFires_cons_skip (s : Store) (r c A B : Nat) (tl : List SwipeEv) :
    pairFires s (SwipeEv.skip r c :: tl) A B = pairFires (insertSkip s r c) tl A B := by
  simp only [pairFires, runSw, List.filter_cons]
  rw [if_neg (by simp)]

theorem pairFires_formula (A B : Nat) (hAB : A ≠ B) :
    ∀ (tr : List SwipeEv) (s : Store),
      tr.count (SwipeEv.like A B) ≤ 1 →
      tr.count (SwipeEv.like B A) ≤ 1 →
      ((A, B) ∈ s.likes → SwipeEv.like A B ∉ tr) →
      ((B, A) ∈ s.likes → SwipeEv.like B A ∉ tr) →
      pairFires s tr A B =
        if (SwipeEv.like A B ∈ tr ∧ ((B, A) ∈ s.likes ∨ SwipeEv.like B A ∈ tr)) ∨
           (SwipeEv.like B A ∈ tr ∧ ((A, B) ∈ s.likes ∨ SwipeEv.like A B ∈ tr))
        then 1 else 0 := by
  have hBA : B ≠ A := Ne.symm hAB
  intro tr
  induction tr with
  | nil => intro s _ _ _ _; simp [pairFires_nil]
  | cons e tl ih =>
      intro s hc1 hc2 hma hmb
      cases e with
      | skip r c =>
          rw [pairFires_cons_skip]
          simp only [List.count_cons, reduceCtorEq, if_false] at hc1 hc2
          rw [ih (insertSkip s r c) (by omega) (by omega)
            (by rw [likes_insertSkip]
                intro hm hin
                exact hma hm (List.mem_cons_of_mem _ hin))
            (by rw [likes_insertSkip]
                intro hm hin
                exact hmb hm (List.mem_cons_of_mem _ hin))]
          apply if_congr _ rfl rfl
          rw [likes_insertSkip]
          simp
      | like r c =>
          rw [pairFires_cons_like]
          by_cases hab : r = A ∧ c = B
          · obtain ⟨h1, h2⟩ := hab
            rw [h1, h2] at hc1 hc2 hma hmb ⊢
            have hBAmem : (B, A) ∈ (insertLike s A B).likes ↔ (B, A) ∈ s.likes := by
              rw [mem_insertLike]
              exact or_iff_left (by rintro ⟨u, v⟩; exact hAB v)
            have hABmem : (A, B) ∈ (insertLike s A B).likes :=
              (mem_insertLike s A B A B).mpr (Or.inr ⟨rfl, rfl⟩)
            simp only [List.count_cons, beq_self_eq_true, if_true, beq_iff_eq,
              SwipeEv.like.injEq] at hc1 hc2
            have hnotin : SwipeEv.like A B ∉ tl :=
              List.count_eq_zero.mp (by omega)
            have hc2' : tl.count (SwipeEv.like B A) ≤ 1 := by
              rw [if_neg (by rintro ⟨u, v⟩; exact hBA v)] at hc2
              omega
            have hma' : (A, B) ∈ (insertLike s A B).likes → SwipeEv.like A B ∉ tl :=
              fun _ => hnotin
            have hmb' : (B, A) ∈ (insertLike s A B).likes → SwipeEv.like B A ∉ tl := by
              rw [hBAmem]
              intro hm hin
              exact hmb hm (List.mem_cons_of_mem _ hin)
            rw [ih (insertLike s A B) (by simp [List.count_eq_zero.mpr hnotin]) hc2' hma' hmb']
            by_cases hx : (B, A) ∈ s.likes
            · have hy : SwipeEv.like B A ∉ tl := fun hin => hmb hx (List.mem_cons_of_mem _ hin)
              simp [hBAmem, hABmem, hx, hy, hnotin, hAB, hBA]
            · by_cases hy : SwipeEv.like B A ∈ tl <;>
                simp [hBAmem, hABmem, hx, hy, hnotin, hAB, hBA]
          · by_cases hba : r = B ∧ c = A
            · obtain ⟨h1, h2⟩ := hba
              rw [h1, h2] at hc1 hc2 hma hmb ⊢
              have hABmem : (A, B) ∈ (insertLike s B A).likes ↔ (A, B) ∈ s.likes := by
                rw [mem_insertLike]
                exact or_iff_left (by rintro ⟨u, v⟩; exact hAB u)
              have hBAmem : (B, A) ∈ (insertLike s B A).likes :=
                (mem_insertLike s B A B A).mpr (Or.inr ⟨rfl, rfl⟩)
              simp only [List.count_cons, beq_self_eq_true, if_true, beq_iff_eq,
                SwipeEv.like.injEq] at hc1 hc2
              have hnotin : SwipeEv.like B A ∉ tl :=
                List.count_eq_zero.mp (by omega)
              have hc1' : tl.count (SwipeEv.like A B) ≤ 1 := by
                rw [if_neg (by rintro ⟨u, v⟩; exact hBA u)] at hc1
                omega
              have hmb' : (B, A) ∈ (insertLike s B A).likes → SwipeEv.like B A ∉ tl :=
                fun _ => hnotin
              have hma' : (A, B) ∈ (insertLike s B A).likes → SwipeEv.like A B ∉ tl := by
                rw [hABmem]
                intro hm hin
                exact hma hm (List.mem_cons_of_mem _ hin)
              rw [ih (insertLike s B A) hc1' (by simp [List.count_eq_zero.mpr hnotin]) hma' hmb']
              by_cases hx : (A, B) ∈ s.likes
              · have hy : SwipeEv.like A B ∉ tl := fun hin => hma hx (List.mem_cons_of_mem _ hin)
                simp [hABmem, hBAmem, hx, hy, hnotin, hAB, hBA]
              · by_cases hy : SwipeEv.like A B ∈ tl <;>
                  simp [hABmem, hBAmem, hx, hy, hnotin, hAB, hBA]
            · have hne1 : ¬(A = r ∧ B = c) := by
                rintro ⟨u, v⟩; exact hab ⟨u.symm, v.symm⟩
              have hne2 : ¬(B = r ∧ A = c) := by
                rintro ⟨u, v⟩; exact hba ⟨u.symm, v.symm⟩
              rw [if_neg (by
                rintro ⟨hd, _⟩
                rcases hd with h | h
                · exact hab h
                · exact hba h)]
              have hTA : (A, B) ∈ (insertLike s r c).likes ↔ (A, B) ∈ s.likes := by
                rw [mem_insertLike]
                exact or_iff_left hne1
              have hTB : (B, A) ∈ (insertLike s r c).likes ↔ (B, A) ∈ s.likes := by
                rw [mem_insertLike]
                exact or_iff_left hne2
              simp only [List.count_cons, beq_iff_eq, SwipeEv.like.injEq,
                if_neg hne1, if_neg hne2] at hc1 hc2
              have hma' : (A, B) ∈ (insertLike s r c).likes → SwipeEv.like A B ∉ tl := by
                rw [hTA]
                intro hm hin
                exact hma hm (List.mem_cons_of_mem _ hin)
              have hmb' : (B, A) ∈ (insertLike s r c).likes → SwipeEv.like B A ∉ tl := by
                rw [hTB]
                intro hm hin
                exact hmb hm (List.mem_cons_of_mem _ hin)
              rw [ih (insertLike s r c) (by omega) (by omega) hma' hmb']
              rw [Nat.zero_add]
              refine if_congr ?_ rfl rfl
              simp [hTA, hTB, hne1, hne2]

/-- C1.  Along any decision trace in which each of the two like directions
for a pair A, B occurs at most once (candidate selection excludes already
liked identities, so the swipe loop never replays a like), starting from a
store holding neither like of the pair, the number of steps at which the
mutual-match notification fires for the pair is one exactly when the trace
contains both likes, and zero otherwise.  Applied to every prefix of the
trace, this places the single firing exactly at the step inserting the
second of the two likes — never earlier, never later; with a skip in place
of the reverse like, no match ever fires for the pair. -/
theorem mutual_match_fires_once (A B : Nat) (s : Store) (tr : List SwipeEv)
    (hAB : A ≠ B) (h0a : (A, B) ∉ s.likes) (h0b : (B, A) ∉ s.likes)
    (hc1 : tr.count (SwipeEv.like A B) ≤ 1) (hc2 : tr.count (SwipeEv.like B A) ≤ 1) :
    pairFires s tr A B =
      if SwipeEv.like A B ∈ tr ∧ SwipeEv.like B A ∈ tr then 1 else 0 := by
  rw [pairFires_formula A B hAB tr s hc1 hc2 (fun hm => absurd hm h0a)
    (fun hm => absurd hm h0b)]
  refine if_congr ?_ rfl rfl
  constructor
  · rintro (⟨h1, h2 | h2⟩ | ⟨h1, h2 | h2⟩)
    · exact absurd h2 h0b
    · exact ⟨h1, h2⟩
    · exact absurd h2 h0a
    · exact ⟨h2, h1⟩
  · rintro ⟨h1, h2⟩
    exact Or.inl ⟨h1, Or.inr h2⟩

theorem mutual_match_fires_once_witness :
    (1 : Nat) ≠ 2 ∧
    pairFires ⟨[], [], []⟩ [SwipeEv.like 1 2, SwipeEv.like 2 1] 1 2 = 1 ∧
    pairFires ⟨[], [], []⟩ [SwipeEv.like 1 2, SwipeEv.skip 2 1] 1 2 = 0 :=
  ⟨by decide,
   (mutual_match_fires_once 1 2 ⟨[], [], []⟩ [SwipeEv.like 1 2, SwipeEv.like 2 1]
     (by decide) (by decide) (by decide) (by decide) (by decide)).trans (by decide),
   (mutual_match_fires_once 1 2 ⟨[], [], []⟩ [SwipeEv.like 1 2, SwipeEv.skip 2 1]
     (by decide) (by decide) (by decide) (by decide) (by decide)).trans (by decide)⟩

end ValourMatch
